import Mathlib

/-!
# Verification of the observer-position module (`observer_pos.rs`)

Shallow embedding of `src/jpl_request/observer_pos.rs` over the real numbers.
`f64` values are modelled as `ℝ`; external collaborators (UT1 resolution,
obliquity, nutation, the frame-change rotation) are modelled as explicit
parameters, and the fallible UT1 download is an `Option` whose `none` case
models the dataset being unavailable.
-/

namespace ObserverPos

noncomputable section

open Real Matrix

abbrev V3 := Fin 3 → ℝ

abbrev M3 := Matrix (Fin 3) (Fin 3) ℝ

/-- Modelled from the spec: the `constants` module is not under src/; the spec
pins the full-circle radian constant (`DPI` = 2π). -/
def DPI : ℝ := 2 * Real.pi

/-- Modelled from the spec: the `constants` module is not under src/; `T2000`
is the modified Julian date of epoch J2000.0. -/
def T2000 : ℝ := 51544.5

/-- Modelled from the spec: the `constants` module is not under src/; `RADSEC`
is the radians-per-arcsecond conversion factor. -/
def RADSEC : ℝ := Real.pi / 648000

/-- Modelled from the spec: the Earth ellipsoid semi-axes and the AU-scaled
Earth equatorial radius are "supplied as fixed configuration" by the
`constants` module, which is not under src/; their numeric values are
therefore kept abstract in an immutable configuration structure, as the spec
itself suggests. -/
structure Consts where
  earth_major_axis : ℝ
  earth_minor_axis : ℝ
  erau : ℝ

/-- External collaborators consumed by the module (none of them is under
src/): the UT1 resolution chain
(`Ut1Provider::download_short_from_jpl()` + `Epoch::to_ut1` +
`to_mjd_utc_days`, modelled as an optional resolver, `none` when the
correction dataset cannot be obtained), the frame-change rotation `rotpn`
(with the frame arguments fixed to the call in `pvobs`), the mean obliquity
`obleq`, and the 1980 nutation model `nutn80`. -/
structure Externals where
  download_ut1 : Option (ℝ → ℝ)
  rotpn : ℝ → M3
  obleq : ℝ → ℝ
  nutn80 : ℝ → ℝ × ℝ

/-- The two-argument arctangent, the mathematical function computed by Rust's
`f64::atan2 (self = y, other = x)`. -/
def atan2 (y x : ℝ) : ℝ :=
  if 0 < x then Real.arctan (y / x)
  else if x < 0 then
    if 0 ≤ y then Real.arctan (y / x) + Real.pi
    else Real.arctan (y / x) - Real.pi
  else if 0 < y then Real.pi / 2
  else if y < 0 then -(Real.pi / 2)
  else 0

/-- Rust's `f64::to_radians`: multiplication by π/180. -/
def toRadians (x : ℝ) : ℝ := x * (Real.pi / 180)

/-- Rust's `f64::trunc`: rounding toward zero. -/
def rustTrunc (x : ℝ) : ℝ := if x < 0 then (⌈x⌉ : ℝ) else (⌊x⌋ : ℝ)

/-- Rust's `f64::fract`: `self - self.trunc()`. -/
def rustFract (x : ℝ) : ℝ := x - rustTrunc x

/-- nalgebra's `Vector3::cross`. -/
def cross3 (a b : V3) : V3 :=
  ![a 1 * b 2 - a 2 * b 1, a 2 * b 0 - a 0 * b 2, a 0 * b 1 - a 1 * b 0]

/-- `lat_alt_to_parallax` from observer_pos.rs: latitude (radians) and height
to the normalized equatorial/polar projection factors. -/
def lat_alt_to_parallax (c : Consts) (lat height : ℝ) : ℝ × ℝ :=
  let axis_ratio := c.earth_minor_axis / c.earth_major_axis
  let u := atan2 (Real.sin lat * axis_ratio) (Real.cos lat)
  let rho_sin_phi := axis_ratio * Real.sin u + (height / c.earth_major_axis) * Real.sin lat
  let rho_cos_phi := Real.cos u + (height / c.earth_major_axis) * Real.cos lat
  (rho_cos_phi, rho_sin_phi)

/-- `geodetic_to_parallax` from observer_pos.rs: degree-input wrapper around
`lat_alt_to_parallax`. -/
def geodetic_to_parallax (c : Consts) (lat height : ℝ) : ℝ × ℝ :=
  let latitude_rad := toRadians lat
  let p := lat_alt_to_parallax c latitude_rad height
  (p.1, p.2)

/-- `body_fixed_coord` from observer_pos.rs: Earth-fixed Cartesian position of
the observatory, in AU. -/
def body_fixed_coord (c : Consts) (longitude latitude height : ℝ) : V3 :=
  let p := geodetic_to_parallax c latitude height
  let lon_radians := toRadians longitude
  ![c.erau * p.1 * Real.cos lon_radians,
    c.erau * p.1 * Real.sin lon_radians,
    c.erau * p.2]

/-- GMST polynomial coefficient `C0` (seconds), local constant of `gmst`. -/
def C0 : ℝ := 24110.54841

/-- GMST polynomial coefficient `C1`, local constant of `gmst`. -/
def C1 : ℝ := 8640184.812866

/-- GMST polynomial coefficient `C2`, local constant of `gmst`. -/
def C2 : ℝ := 9.3104e-2

/-- GMST polynomial coefficient `C3`, local constant of `gmst`. -/
def C3 : ℝ := -6.2e-6

/-- Sidereal/solar day ratio `RAP`, local constant of `gmst`. -/
def RAP : ℝ := 1.00273790934

/-- `gmst` from observer_pos.rs: Greenwich Mean Sidereal Time in radians at a
modified Julian date (UT1). -/
def gmst (tjm : ℝ) : ℝ :=
  let itjm : ℝ := (⌊tjm⌋ : ℝ)
  let t := (itjm - T2000) / 36525
  let gmst0 := (((C3 * t + C2) * t + C1) * t + C0) * (DPI / 86400)
  let h := rustFract tjm * DPI
  let gmst1 := gmst0 + h * RAP
  let i : ℤ := ⌊gmst1 / DPI⌋
  let i2 : ℤ := if gmst1 < 0 then i - 1 else i
  gmst1 - (i2 : ℝ) * DPI

/-- `equequ` from observer_pos.rs: the equation of the equinoxes. -/
def equequ (ext : Externals) (tjm : ℝ) : ℝ :=
  let oblm := ext.obleq tjm
  let dpsi := (ext.nutn80 tjm).1
  RADSEC * dpsi * Real.cos oblm

/-- Modelled from the spec: `rotmt` lives in `ref_system`, which is not under
src/; the spec describes it as the generic rotation matrix by a given angle
about coordinate axis `k` (frame-rotation sign convention; axis 2 is the Earth
spin axis, i.e. the third coordinate axis). -/
def rotmt (alpha : ℝ) (k : Fin 3) : M3 :=
  if k = 0 then
    !![1, 0, 0;
       0, Real.cos alpha, Real.sin alpha;
       0, -Real.sin alpha, Real.cos alpha]
  else if k = 1 then
    !![Real.cos alpha, 0, -Real.sin alpha;
       0, 1, 0;
       Real.sin alpha, 0, Real.cos alpha]
  else
    !![Real.cos alpha, Real.sin alpha, 0;
       -Real.sin alpha, Real.cos alpha, 0;
       0, 0, 1]

/-- `pvobs` from observer_pos.rs: observer position and velocity with respect
to the center of mass of the Earth, in the ecliptic mean J2000 frame.

The UT1 download (`Ut1Provider::download_short_from_jpl().unwrap()`) is
fallible; its failure makes the source panic via `.unwrap()`, which is
modelled by the `none` result.  Modelled from the spec: `rotpn` and `rotmt`
(`ref_system`, not under src/) supply their rotation matrices in canonical
form, and — per the spec — the composer's two `Matrix3::from(..).transpose()`
steps apply mathematical transposition to those canonical matrices (the
row-major array vs column-major `Matrix3` storage being an internal
representation detail). -/
def pvobs (c : Consts) (ext : Externals) (tmjd longitude latitude height : ℝ) :
    Option (V3 × V3) :=
  let omega : V3 := ![0, 0, DPI * 1.00273790934]
  let dxbf := body_fixed_coord c longitude latitude height
  let dvbf := cross3 omega dxbf
  match ext.download_ut1 with
  | none => none
  | some provider =>
      let tut := provider tmjd
      let gast := gmst tut + equequ ext tmjd
      let rot := rotmt (-gast) 2
      let rot1 := ext.rotpn tmjd
      let rot1_mat := rot1ᵀ
      let rot_mat := rotᵀ
      let rotmat := rot1_mat * rot_mat
      some (rotmat.mulVec dxbf, rotmat.mulVec dvbf)

/-- Spec-side definition (written from the spec's words, §4.1, for comparison
with `lat_alt_to_parallax`): `r = minor_axis/major_axis`,
`u = atan2(sin(lat)·r, cos(lat))`,
`rho_cos_phi = cos(u) + (height/major_axis)·cos(lat)`,
`rho_sin_phi = r·sin(u) + (height/major_axis)·sin(lat)`. -/
def lat_alt_to_parallax_spec (c : Consts) (lat height : ℝ) : ℝ × ℝ :=
  let r := c.earth_minor_axis / c.earth_major_axis
  let u := atan2 (Real.sin lat * r) (Real.cos lat)
  (Real.cos u + (height / c.earth_major_axis) * Real.cos lat,
   r * Real.sin u + (height / c.earth_major_axis) * Real.sin lat)

/-- Spec-side definition (written from the spec's words, §4.2, for comparison
with `body_fixed_coord`):
`(ERAU·rho_cos_phi·cos(lon), ERAU·rho_cos_phi·sin(lon), ERAU·rho_sin_phi)`
with `(rho_cos_phi, rho_sin_phi)` from the degree-input parallax converter and
`lon` the longitude converted to radians. -/
def body_fixed_coord_spec (c : Consts) (longitude latitude height : ℝ) : V3 :=
  ![c.erau * (geodetic_to_parallax c latitude height).1 * Real.cos (toRadians longitude),
    c.erau * (geodetic_to_parallax c latitude height).1 * Real.sin (toRadians longitude),
    c.erau * (geodetic_to_parallax c latitude height).2]

/-- Spec-side definition (written from the spec's words, §4.4, for comparison
with `equequ`): `Δψ_rad·cos(ε)` where `Δψ_rad = Δψ × radians-per-arcsecond`. -/
def equequ_spec (ext : Externals) (tjm : ℝ) : ℝ :=
  ((ext.nutn80 tjm).1 * RADSEC) * Real.cos (ext.obleq tjm)

/-- The polynomial/fractional-day part of `gmst` before scaling by the full
circle: with `n = ⌊tjm⌋`, the value `y` such that the pre-normalization GMST
equals `DPI * y`. -/
def gmstY (n : ℤ) (tjm : ℝ) : ℝ :=
  (((C3 * (((n : ℝ) - T2000) / 36525) + C2) * (((n : ℝ) - T2000) / 36525) + C1) *
      (((n : ℝ) - T2000) / 36525) + C0) / 86400 + (tjm - (n : ℝ)) * RAP

/-- A concrete configuration (plausible ellipsoid values), used only to
instantiate universally quantified theorems in witnesses. -/
def cW : Consts := ⟨6378137, 6356752.314245, 0.0000426352325194252⟩

/-- Concrete externals whose UT1 download fails. -/
def extNone : Externals := ⟨none, fun _ => 1, fun _ => 0, fun _ => (0, 0)⟩

/-- Concrete externals whose UT1 download succeeds with the identity
resolver. -/
def extId : Externals := ⟨some (fun t => t), fun _ => 1, fun _ => 0, fun _ => (0, 0)⟩

/-! ## Helper lemmas -/

/-- nalgebra's cross product coincides with Mathlib's `crossProduct`. -/
theorem cross3_eq_crossProduct (a b : V3) : cross3 a b = crossProduct a b := by
  rw [cross_apply, cross3]

set_option maxHeartbeats 1000000 in
/-- The cosine of `atan2` is even in its first argument. -/
theorem cos_atan2_neg_left (y x : ℝ) :
    Real.cos (atan2 (-y) x) = Real.cos (atan2 y x) := by
  simp only [atan2, neg_div]
  rcases lt_trichotomy 0 x with hx | hx | hx <;>
    rcases lt_trichotomy 0 y with hy | hy | hy <;>
      split_ifs <;>
        first
          | (exfalso; linarith)
          | (simp [Real.arctan_neg, Real.arctan_zero, Real.cos_neg, Real.cos_add,
              Real.cos_sub, Real.sin_neg, Real.cos_pi, Real.sin_pi])

set_option maxHeartbeats 1000000 in
/-- The sine of `atan2` is odd in its first argument. -/
theorem sin_atan2_neg_left (y x : ℝ) :
    Real.sin (atan2 (-y) x) = -Real.sin (atan2 y x) := by
  simp only [atan2, neg_div]
  rcases lt_trichotomy 0 x with hx | hx | hx <;>
    rcases lt_trichotomy 0 y with hy | hy | hy <;>
      split_ifs <;>
        first
          | (exfalso; linarith)
          | (simp [Real.arctan_neg, Real.arctan_zero, Real.sin_neg, Real.sin_add,
              Real.sin_sub, Real.cos_neg, Real.cos_pi, Real.sin_pi,
              Real.sin_pi_div_two])

/-- Closed form of `gmst`: for a non-negative epoch with floor `n`, the result
is the full circle times the normalized `gmstY` value, plus one extra full
circle when the pre-normalization value is negative. -/
theorem gmst_closed (tjm : ℝ) (n : ℤ) (hn : ⌊tjm⌋ = n) (h0 : ¬ tjm < 0) :
    gmst tjm = DPI * (gmstY n tjm - (⌊gmstY n tjm⌋ : ℝ)) +
      if gmstY n tjm < 0 then DPI else 0 := by
  have hpi : (0 : ℝ) < Real.pi := Real.pi_pos
  have hDPI : (0 : ℝ) < DPI := by simp only [DPI]; linarith
  have hfr : rustFract tjm = tjm - (n : ℝ) := by
    simp only [rustFract, rustTrunc, if_neg h0, hn]
  have hg1 : (((C3 * (((n : ℝ) - T2000) / 36525) + C2) * (((n : ℝ) - T2000) / 36525) + C1) *
        (((n : ℝ) - T2000) / 36525) + C0) * (DPI / 86400) + rustFract tjm * DPI * RAP
      = DPI * gmstY n tjm := by
    rw [hfr]
    simp only [gmstY]
    ring
  simp only [gmst, hn]
  rw [hg1, mul_div_cancel_left₀ _ hDPI.ne']
  have hiff : (DPI * gmstY n tjm < 0) = (gmstY n tjm < 0) := by
    apply propext
    constructor
    · intro hh
      by_contra hc
      push_neg at hc
      nlinarith
    · intro hh
      nlinarith [mul_pos hDPI (neg_pos.mpr hh)]
  simp only [hiff]
  by_cases hy : gmstY n tjm < 0
  · rw [if_pos hy, if_pos hy]
    push_cast
    ring
  · rw [if_neg hy, if_neg hy]
    ring

/-! ## Claim theorems -/

/-- C1: the claim says that when the UTC→UT1 correction dataset cannot be
obtained, `pvobs` fails with a recoverable `TimeResolutionError` propagated to
its caller.  The code instead calls `.unwrap()` on the download result and
panics.  This theorem evaluates the code's behavior at the failing input: when
the dataset is unavailable, the call produces no value at all (the panic,
modelled as `none`) — in particular no error value reaches the caller and no
partial result is produced. -/
theorem pvobs_unavailable_ut1_yields_no_result (c : Consts) (ext : Externals)
    (tmjd longitude latitude height : ℝ) (hdl : ext.download_ut1 = none) :
    pvobs c ext tmjd longitude latitude height = none := by
  unfold pvobs
  rw [hdl]

/-- Witness for C1's theorem at a concrete configuration whose UT1 download
fails, at the reference epoch and the Haleakalā coordinates. -/
theorem pvobs_unavailable_ut1_yields_no_result_witness :
    extNone.download_ut1 = none ∧
    pvobs cW extNone 57028.479297592596 203.74409 20.707233557 3067.694 = none :=
  ⟨rfl, pvobs_unavailable_ut1_yields_no_result cW extNone 57028.479297592596 203.74409
    20.707233557 3067.694 rfl⟩

/-- C2: the claim says `gmst` always lands in `[0, 2π)`.  It does not: at
MJD 20000 the pre-normalization value is negative, and the negative branch
(`.floor()` followed by an extra decrement) subtracts one full circle too few,
landing the result in `[2π, 4π)`.  This theorem evaluates the code at the
failing input: `gmst 20000 ≥ DPI = 2π`, contradicting the claimed interval
(and the source's own doc comment). -/
theorem gmst_out_of_range_at_mjd_20000 : DPI ≤ gmst 20000 := by
  have h := gmst_closed 20000 20000 (by norm_num) (by norm_num)
  have hy : gmstY 20000 20000 =
      -(14497115365920499889844825961 / 168400899774000000000000000) := by
    simp only [gmstY, C0, C1, C2, C3, RAP, T2000]
    norm_num
  rw [hy] at h
  rw [show ⌊(-(14497115365920499889844825961 / 168400899774000000000000000) : ℝ)⌋ = -87
      by norm_num] at h
  rw [if_pos (by norm_num)] at h
  rw [h]
  simp only [DPI]
  have hπ := Real.pi_pos
  push_cast
  nlinarith

/-- C3: for every UTC epoch, longitude, latitude and height (and every
behavior of the external collaborators), when the UT1 resolution succeeds,
`pvobs` composes `R = transpose(R_frame) · transpose(R_earth)` with
`R_earth = rotmt(-gast, 2)` (the rotation by `-gast` about the third
coordinate axis), `gast = gmst(ut1_epoch) + equequ(utc_epoch)`, `R_frame` the
externally supplied frame-change matrix at the UTC epoch, and returns
`R · earth_fixed_position` and `R · earth_fixed_velocity`. -/
theorem pvobs_rotation_chain (c : Consts) (ext : Externals) (resolver : ℝ → ℝ)
    (tmjd longitude latitude height : ℝ)
    (hdl : ext.download_ut1 = some resolver) :
    pvobs c ext tmjd longitude latitude height =
      some
        (((ext.rotpn tmjd)ᵀ *
            (rotmt (-(gmst (resolver tmjd) + equequ ext tmjd)) 2)ᵀ).mulVec
          (body_fixed_coord c longitude latitude height),
         ((ext.rotpn tmjd)ᵀ *
            (rotmt (-(gmst (resolver tmjd) + equequ ext tmjd)) 2)ᵀ).mulVec
          (cross3 ![0, 0, DPI * 1.00273790934]
            (body_fixed_coord c longitude latitude height))) := by
  unfold pvobs
  rw [hdl]

/-- Witness for C3's theorem at concrete externals with a successful identity
UT1 resolver, at the reference epoch and the Haleakalā coordinates. -/
theorem pvobs_rotation_chain_witness :
    extId.download_ut1 = some (fun t : ℝ => t) ∧
    pvobs cW extId 57028.479297592596 203.74409 20.707233557 3067.694 =
      some
        (((extId.rotpn 57028.479297592596)ᵀ *
            (rotmt (-(gmst ((fun t : ℝ => t) 57028.479297592596) +
              equequ extId 57028.479297592596)) 2)ᵀ).mulVec
          (body_fixed_coord cW 203.74409 20.707233557 3067.694),
         ((extId.rotpn 57028.479297592596)ᵀ *
            (rotmt (-(gmst ((fun t : ℝ => t) 57028.479297592596) +
              equequ extId 57028.479297592596)) 2)ᵀ).mulVec
          (cross3 ![0, 0, DPI * 1.00273790934]
            (body_fixed_coord cW 203.74409 20.707233557 3067.694))) :=
  ⟨rfl, pvobs_rotation_chain cW extId (fun t : ℝ => t) 57028.479297592596 203.74409
    20.707233557 3067.694 rfl⟩

/-- C4: `lat_alt_to_parallax` computes exactly the spec's formulas
(`rho_cos_phi = cos(u) + (height/major_axis)·cos(lat)`,
`rho_sin_phi = r·sin(u) + (height/major_axis)·sin(lat)` with
`r = minor/major` and `u = atan2(sin(lat)·r, cos(lat))`), it is total (defined
for all real latitudes), and the degree-input wrapper `geodetic_to_parallax`
only converts latitude degrees→radians before delegating. -/
theorem lat_alt_to_parallax_meets_spec (c : Consts) (lat height : ℝ) :
    lat_alt_to_parallax c lat height = lat_alt_to_parallax_spec c lat height ∧
    geodetic_to_parallax c lat height = lat_alt_to_parallax c (toRadians lat) height :=
  ⟨rfl, rfl⟩

/-- C5: `body_fixed_coord` returns exactly
`(ERAU·rho_cos_phi·cos(lon), ERAU·rho_cos_phi·sin(lon), ERAU·rho_sin_phi)`
with `(rho_cos_phi, rho_sin_phi)` the parallax converter's output for that
latitude and height and `lon` the longitude converted to radians. -/
theorem body_fixed_coord_meets_spec (c : Consts) (longitude latitude height : ℝ) :
    body_fixed_coord c longitude latitude height =
      body_fixed_coord_spec c longitude latitude height :=
  rfl

/-- C6: in `pvobs`, the Earth-fixed velocity is the cross product (Mathlib's
`crossProduct`) of the Earth angular-velocity pseudovector
`(0, 0, DPI·1.00273790934)` with the Earth-fixed position built from the
observer's longitude, latitude and height; the returned velocity is the
composed rotation applied to that cross product. -/
theorem pvobs_velocity_is_cross_product (c : Consts) (ext : Externals)
    (resolver : ℝ → ℝ) (tmjd longitude latitude height : ℝ)
    (hdl : ext.download_ut1 = some resolver) :
    Option.map Prod.snd (pvobs c ext tmjd longitude latitude height) =
      some
        (((ext.rotpn tmjd)ᵀ *
            (rotmt (-(gmst (resolver tmjd) + equequ ext tmjd)) 2)ᵀ).mulVec
          (crossProduct ![0, 0, DPI * 1.00273790934]
            (body_fixed_coord c longitude latitude height))) := by
  unfold pvobs
  rw [hdl]
  dsimp only
  rw [cross3_eq_crossProduct]
  rfl

/-- Witness for C6's theorem at concrete externals with a successful identity
UT1 resolver. -/
theorem pvobs_velocity_is_cross_product_witness :
    extId.download_ut1 = some (fun t : ℝ => t) ∧
    Option.map Prod.snd (pvobs cW extId 57028.479297592596 203.74409 20.707233557 3067.694) =
      some
        (((extId.rotpn 57028.479297592596)ᵀ *
            (rotmt (-(gmst ((fun t : ℝ => t) 57028.479297592596) +
              equequ extId 57028.479297592596)) 2)ᵀ).mulVec
          (crossProduct ![0, 0, DPI * 1.00273790934]
            (body_fixed_coord cW 203.74409 20.707233557 3067.694))) :=
  ⟨rfl, pvobs_velocity_is_cross_product cW extId (fun t : ℝ => t) 57028.479297592596
    203.74409 20.707233557 3067.694 rfl⟩

/-- C7: `gmst` evaluated at the two reference epochs yields the literal
reference values, to within 10⁻¹² radians (the residual being the π-precision
of the bound plus the f64 rounding of the reference literals). -/
theorem gmst_reference_values :
    |gmst 57028.478514610404 - 4.851925725092499| < 1e-12 ∧
    |gmst T2000 - 4.894961212789145| < 1e-12 := by
  have hl := Real.pi_gt_d20
  have hu := Real.pi_lt_d20
  constructor
  · have h := gmst_closed 57028.478514610404 57028 (by norm_num) (by norm_num)
    have hy : gmstY 57028 57028.478514610404 =
        16600337577094467090180381947357629 / 1052505623587500000000000000000000 := by
      simp only [gmstY, C0, C1, C2, C3, RAP, T2000]
      norm_num
    rw [hy] at h
    rw [show ⌊(16600337577094467090180381947357629 /
        1052505623587500000000000000000000 : ℝ)⌋ = 15 by norm_num] at h
    rw [if_neg (by norm_num)] at h
    rw [h]
    simp only [DPI]
    push_cast
    rw [abs_lt]
    constructor <;> nlinarith
  · have h := gmst_closed T2000 51544 (by simp only [T2000]; norm_num)
      (by simp only [T2000]; norm_num)
    have hy : gmstY 51544 T2000 =
        131193945792208941542241031 / 168400899774000000000000000 := by
      simp only [gmstY, C0, C1, C2, C3, RAP, T2000]
      norm_num
    rw [hy] at h
    rw [show ⌊(131193945792208941542241031 / 168400899774000000000000000 : ℝ)⌋ = 0
        by norm_num] at h
    rw [if_neg (by norm_num)] at h
    rw [h]
    simp only [DPI]
    push_cast
    rw [abs_lt]
    constructor <;> nlinarith

/-- C8: at height 0, for every latitude, the parallax converter's outputs lie
exactly on the reference ellipsoid:
`rho_cos_phi² + (rho_sin_phi/axis_ratio)² = 1` (over the reals the spec's `≈`
is exact), so the body-fixed position magnitude is the Earth radius in AU
times a factor close to 1. -/
theorem parallax_ellipsoid_constraint (c : Consts) (lat : ℝ)
    (hr : c.earth_minor_axis / c.earth_major_axis ≠ 0) :
    (lat_alt_to_parallax c lat 0).1 ^ 2 +
      ((lat_alt_to_parallax c lat 0).2 /
        (c.earth_minor_axis / c.earth_major_axis)) ^ 2 = 1 := by
  simp only [lat_alt_to_parallax, zero_div, zero_mul, add_zero]
  rw [mul_div_cancel_left₀ _ hr]
  exact Real.cos_sq_add_sin_sq _

/-- Witness for C8's theorem at a concrete ellipsoid configuration and
latitude 0.7 rad. -/
theorem parallax_ellipsoid_constraint_witness :
    cW.earth_minor_axis / cW.earth_major_axis ≠ 0 ∧
    (lat_alt_to_parallax cW 0.7 0).1 ^ 2 +
      ((lat_alt_to_parallax cW 0.7 0).2 /
        (cW.earth_minor_axis / cW.earth_major_axis)) ^ 2 = 1 :=
  ⟨by norm_num [cW], parallax_ellipsoid_constraint cW 0.7 (by norm_num [cW])⟩

/-- C9: for every MJD epoch (and every behavior of the external obliquity and
nutation collaborators), `equequ` returns `Δψ_rad·cos(ε)` with
`Δψ_rad = Δψ × radians-per-arcsecond`, `ε` the externally supplied mean
obliquity and `Δψ` the externally supplied nutation in longitude. -/
theorem equequ_meets_spec (ext : Externals) (tjm : ℝ) :
    equequ ext tjm = equequ_spec ext tjm := by
  simp only [equequ, equequ_spec]
  ring

/-- C10: equatorial mirror symmetry: negating the latitude preserves
`rho_cos_phi` and negates `rho_sin_phi`, both for the radian-input converter
and for the degree-input wrapper. -/
theorem parallax_mirror_symmetry (c : Consts) (lat height : ℝ) :
    lat_alt_to_parallax c (-lat) height =
      ((lat_alt_to_parallax c lat height).1, -(lat_alt_to_parallax c lat height).2) ∧
    geodetic_to_parallax c (-lat) height =
      ((geodetic_to_parallax c lat height).1, -(geodetic_to_parallax c lat height).2) := by
  have key : ∀ l : ℝ, lat_alt_to_parallax c (-l) height =
      ((lat_alt_to_parallax c l height).1, -(lat_alt_to_parallax c l height).2) := by
    intro l
    simp only [lat_alt_to_parallax, Real.sin_neg, Real.cos_neg, neg_mul, Prod.mk.injEq]
    rw [cos_atan2_neg_left, sin_atan2_neg_left]
    exact ⟨rfl, by ring⟩
  refine ⟨key lat, ?_⟩
  simp only [geodetic_to_parallax]
  rw [show toRadians (-lat) = -(toRadians lat) by simp only [toRadians]; ring]
  rw [key (toRadians lat)]

end

end ObserverPos
